import Mathlib

/-!
Shallow embedding of the LTC2990 hwmon driver core
(drivers/hwmon/ltc2990.c): register constants, the value codec
(`ltc2990_voltage_to_int`, the conversion switch of `ltc2990_get_value`),
the mode table `ltc2990_attrs_ena`, and the controller operations
(`ltc2990_write_control_trigger`, `ltc2990_set_mode`, the mode set-up part
of `ltc2990_i2c_probe`).  The bus is modelled as an oracle: a read is an
`Int` (negative means transport failure, as in the SMBus API), each write
outcome is an `Int` return code passed in as a parameter.  Controller
runs additionally record an event trace (lock, mode store, successful
register writes) so that ordering and absence of side effects are provable.
-/

/-- Register addresses, from the #define block of the driver. -/
def LTC2990_STATUS : Nat := 0x00

/-- Control register address. -/
def LTC2990_CONTROL : Nat := 0x01

/-- Trigger register address. -/
def LTC2990_TRIGGER : Nat := 0x02

/-- Internal temperature MSB register address. -/
def LTC2990_TINT_MSB : Nat := 0x04

/-- V1 MSB register address. -/
def LTC2990_V1_MSB : Nat := 0x06

/-- V2 MSB register address. -/
def LTC2990_V2_MSB : Nat := 0x08

/-- V3 MSB register address. -/
def LTC2990_V3_MSB : Nat := 0x0A

/-- V4 MSB register address. -/
def LTC2990_V4_MSB : Nat := 0x0C

/-- VCC MSB register address. -/
def LTC2990_VCC_MSB : Nat := 0x0E

/-- Control byte: measure-all flag, `0x3 << 3`. -/
def LTC2990_CONTROL_MEASURE_ALL : Nat := 0x3 <<< 3

/-- Default mode (6, measure all). -/
def LTC2990_CONTROL_MODE_DEFAULT : Nat := 0x06

/-- Largest valid mode (7). -/
def LTC2990_CONTROL_MODE_MAX : Nat := 0x07

/-- Channel index bit for the supply voltage channel, `BIT(0)`. -/
def LTC2990_IN0 : Nat := 1 <<< 0

/-- Channel index bit for IN1, `BIT(1)`. -/
def LTC2990_IN1 : Nat := 1 <<< 1

/-- Channel index bit for IN2, `BIT(2)`. -/
def LTC2990_IN2 : Nat := 1 <<< 2

/-- Channel index bit for IN3, `BIT(3)`. -/
def LTC2990_IN3 : Nat := 1 <<< 3

/-- Channel index bit for IN4, `BIT(4)`. -/
def LTC2990_IN4 : Nat := 1 <<< 4

/-- Channel index bit for the first differential-current channel, `BIT(5)`. -/
def LTC2990_CURR1 : Nat := 1 <<< 5

/-- Channel index bit for the second differential-current channel, `BIT(6)`. -/
def LTC2990_CURR2 : Nat := 1 <<< 6

/-- Channel index bit for the internal temperature channel, `BIT(7)`. -/
def LTC2990_TEMP1 : Nat := 1 <<< 7

/-- Channel index bit for the remote temperature channel on V1, `BIT(8)`. -/
def LTC2990_TEMP2 : Nat := 1 <<< 8

/-- Channel index bit for the remote temperature channel on V3, `BIT(9)`. -/
def LTC2990_TEMP3 : Nat := 1 <<< 9

/-- The errno value EINVAL (22); the driver returns `-EINVAL`. -/
def EINVAL : Int := 22

/-- The mode table `ltc2990_attrs_ena`: for each mode 0..7 the bitmask of
mode-dependent channels that are enabled, exactly as in the static array
in the driver. -/
def ltc2990_attrs_ena : List Nat :=
  [LTC2990_IN1 ||| LTC2990_IN2 ||| LTC2990_TEMP3,
   LTC2990_CURR1 ||| LTC2990_TEMP3,
   LTC2990_CURR1 ||| LTC2990_IN3 ||| LTC2990_IN4,
   LTC2990_TEMP2 ||| LTC2990_IN3 ||| LTC2990_IN4,
   LTC2990_TEMP2 ||| LTC2990_CURR2,
   LTC2990_TEMP2 ||| LTC2990_TEMP3,
   LTC2990_CURR1 ||| LTC2990_CURR2,
   LTC2990_IN1 ||| LTC2990_IN2 ||| LTC2990_IN3 ||| LTC2990_IN4]

/-- `ltc2990_attrs_visible` for a mode-dependent attribute: visible iff the
mode table entry for the current mode has the channel's bit set. -/
def ltc2990_attrs_visible (mode index : Nat) : Bool :=
  decide (ltc2990_attrs_ena.getD mode 0 &&& index ≠ 0)

/-- Overall per-channel visibility: the internal temperature and supply
voltage attributes live in the static attribute group (always visible,
any mode); the remaining eight go through `ltc2990_attrs_visible`. -/
def ltc2990_channel_visible (mode index : Nat) : Bool :=
  index == LTC2990_TEMP1 || index == LTC2990_IN0 ||
    ltc2990_attrs_visible mode index

/-- The ten channel index bits, in bit order. -/
def ltc2990_all_channels : List Nat :=
  [LTC2990_IN0, LTC2990_IN1, LTC2990_IN2, LTC2990_IN3, LTC2990_IN4,
   LTC2990_CURR1, LTC2990_CURR2, LTC2990_TEMP1, LTC2990_TEMP2, LTC2990_TEMP3]

/-- The enabled-channel set for a mode, as the sublist of all channels that
are visible in that mode. -/
def ltc2990_enabled_channels (mode : Nat) : List Nat :=
  ltc2990_all_channels.filter (fun c => ltc2990_channel_visible mode c)

/-- `ltc2990_voltage_to_int`: convert a raw register word to a sign-extended
integer.  Bit 14 is the two's-complement sign of the 14-bit field in bits
0..13; the result is shifted left by 2 (`<< 2`, written `* 4`; the operands
are in range, so the C shift is exact multiplication). -/
def ltc2990_voltage_to_int (raw : Nat) : Int :=
  if raw &&& (1 <<< 14) ≠ 0 then
    -((0x4000 : Int) - ((raw &&& 0x3FFF : Nat) : Int)) * 4
  else
    ((raw &&& 0x3FFF : Nat) : Int) * 4

/-- The first switch of `ltc2990_get_value`: the register read for a channel
index, `none` for the `default: return -EINVAL` case.  It depends on the
channel index alone. -/
def ltc2990_reg_of_index (index : Nat) : Option Nat :=
  if index = LTC2990_IN0 then some LTC2990_VCC_MSB
  else if index = LTC2990_IN1 then some LTC2990_V1_MSB
  else if index = LTC2990_CURR1 then some LTC2990_V1_MSB
  else if index = LTC2990_TEMP2 then some LTC2990_V1_MSB
  else if index = LTC2990_IN2 then some LTC2990_V2_MSB
  else if index = LTC2990_IN3 then some LTC2990_V3_MSB
  else if index = LTC2990_CURR2 then some LTC2990_V3_MSB
  else if index = LTC2990_TEMP3 then some LTC2990_V3_MSB
  else if index = LTC2990_IN4 then some LTC2990_V4_MSB
  else if index = LTC2990_TEMP1 then some LTC2990_TINT_MSB
  else none

/-- The second switch of `ltc2990_get_value`: convert the raw word read from
the bus to the physical value.  C's `/` on `int` truncates toward zero, so it
is modelled by `Int.tdiv`; the temperature path is non-negative, so its
arithmetic `>> 7` equals the `Nat` shift. -/
def ltc2990_convert (index : Nat) (val : Nat) : Option Int :=
  if index = LTC2990_TEMP1 ∨ index = LTC2990_TEMP2 ∨ index = LTC2990_TEMP3 then
    some (((((val &&& 0x1FFF) <<< 3) * 1000) >>> 7 : Nat) : Int)
  else if index = LTC2990_CURR1 ∨ index = LTC2990_CURR2 then
    some ((ltc2990_voltage_to_int val * 1942).tdiv (4 * 100))
  else if index = LTC2990_IN0 then
    some ((ltc2990_voltage_to_int val * 30518).tdiv (4 * 100 * 1000) + 2500)
  else if index = LTC2990_IN1 ∨ index = LTC2990_IN2 ∨
          index = LTC2990_IN3 ∨ index = LTC2990_IN4 then
    some ((ltc2990_voltage_to_int val * 30518).tdiv (4 * 100 * 1000))
  else none

/-- Result of a `ltc2990_get_value` run: the return code, the final value of
the caller's `*result` out-parameter (the initial value is passed in and kept
on every failing path), and the list of registers read on the bus. -/
structure GetValueResult where
  ret : Int
  result : Int
  readRegs : List Nat
deriving DecidableEq, Repr

/-- `ltc2990_get_value`: select the register from the channel index (or fail
with `-EINVAL` before touching the bus), read it (a negative bus value is a
transport failure, returned as-is), convert, store into the out-parameter and
return 0.  `bus` maps a register address to the word the SMBus read returns. -/
def ltc2990_get_value (bus : Nat → Int) (index : Nat) (result0 : Int) :
    GetValueResult :=
  match ltc2990_reg_of_index index with
  | none => ⟨-EINVAL, result0, []⟩
  | some reg =>
    let val := bus reg
    if val < 0 then ⟨val, result0, [reg]⟩
    else
      match ltc2990_convert index val.toNat with
      | none => ⟨-EINVAL, result0, [reg]⟩
      | some v => ⟨0, v, [reg]⟩

/-- Controller state: the stored mode and the last values successfully
written to the control and trigger registers (`none` = never written). -/
structure LtcState where
  mode : Nat
  control : Option Nat
  trigger : Option Nat
deriving DecidableEq, Repr

/-- Events of a controller run, in order: lock acquisition and release,
the store to `data->mode`, and each successful bus register write. -/
inductive Event where
  | lock
  | unlock
  | storeMode (m : Nat)
  | busWrite (reg val : Nat)
deriving DecidableEq, Repr

/-- `ltc2990_write_control_trigger`: write control = measure-all | mode, then
trigger = 1.  `w1` and `w2` are the outcomes the bus gives the two writes
(negative = failure, returned immediately; the register keeps its old value
on a failed write). -/
def ltc2990_write_control_trigger (s : LtcState) (w1 w2 : Int) :
    Int × LtcState × List Event :=
  if w1 < 0 then (w1, s, [])
  else
    let ctrl := LTC2990_CONTROL_MEASURE_ALL ||| s.mode
    let s1 : LtcState := { s with control := some ctrl }
    let ev1 : List Event := [Event.busWrite LTC2990_CONTROL ctrl]
    if w2 < 0 then (w2, s1, ev1)
    else (0, { s1 with trigger := some 1 },
          ev1 ++ [Event.busWrite LTC2990_TRIGGER 1])

/-- Result of a `ltc2990_set_mode` run. -/
structure ModeResult where
  ret : Int
  state : LtcState
  events : List Event
deriving DecidableEq, Repr

/-- `ltc2990_set_mode` after the decimal parse: reject mode > 7 with
`-EINVAL` before taking the lock; otherwise lock, store the mode, run
`ltc2990_write_control_trigger`, then the sysfs visibility update (outcome
`sysfsRet`), unlock, and return `count` on full success.  Errors from the
write or the update are returned with the mode left as stored. -/
def ltc2990_set_mode (s : LtcState) (mode : Nat) (w1 w2 sysfsRet count : Int) :
    ModeResult :=
  if mode > LTC2990_CONTROL_MODE_MAX then ⟨-EINVAL, s, []⟩
  else
    let s1 : LtcState := { s with mode := mode }
    let r := ltc2990_write_control_trigger s1 w1 w2
    let evs := Event.lock :: Event.storeMode mode :: r.2.2
    if r.1 < 0 then ⟨r.1, r.2.1, evs ++ [Event.unlock]⟩
    else if sysfsRet < 0 then ⟨sysfsRet, r.2.1, evs ++ [Event.unlock]⟩
    else ⟨count, r.2.1, evs ++ [Event.unlock]⟩

/-- Result of the mode set-up part of `ltc2990_i2c_probe`. -/
structure ProbeResult where
  ret : Int
  state : LtcState
  events : List Event
  warned : Bool
deriving DecidableEq, Repr

/-- The mode set-up part of `ltc2990_i2c_probe`: take the configured mode
(`none` = no device-tree node or the property read failed, then the default
is used), substitute the default with a warning if it is out of range, and
run `ltc2990_write_control_trigger` on a fresh state. -/
def ltc2990_i2c_probe_init (configured : Option Nat) (w1 w2 : Int) :
    ProbeResult :=
  let mode0 := match configured with
    | none => LTC2990_CONTROL_MODE_DEFAULT
    | some m => m
  let warn := mode0 > LTC2990_CONTROL_MODE_MAX
  let mode1 := if warn then LTC2990_CONTROL_MODE_DEFAULT else mode0
  let s : LtcState := { mode := mode1, control := none, trigger := none }
  let r := ltc2990_write_control_trigger s w1 w2
  ⟨if r.1 < 0 then r.1 else 0, r.2.1, r.2.2, warn⟩

/-- A natural number cast to `Int` is not negative (bus reads that return a
raw word are non-negative). -/
theorem int_natCast_not_neg (n : Nat) : ¬((n : Int) < 0) :=
  Int.not_lt.mpr (Int.natCast_nonneg n)

/-- C1: `ltc2990_voltage_to_int` is a total pure function on 16-bit register
words decoding bit 14 as the two's-complement sign of the 14-bit field, left
shifted by 2; it maps `0x0000` to 0, and every word with bit 14 set and bits
0..13 zero to exactly -65536. -/
theorem ltc2990_voltage_to_int_signed14 :
    ltc2990_voltage_to_int 0x0000 = 0 ∧
    ∀ raw : Nat, raw < 65536 → raw &&& (1 <<< 14) ≠ 0 → raw &&& 0x3FFF = 0 →
      ltc2990_voltage_to_int raw = -65536 := by
  refine ⟨by decide, ?_⟩
  intro raw _ h14 h13
  have h14n : ¬(raw &&& 16384 = 0) := by simpa using h14
  simp [ltc2990_voltage_to_int, h14n, h13]

/-- C1 witness: at `0x4000` (bit 14 set, bits 0..13 zero) the decoder gives
-65536. -/
theorem ltc2990_voltage_to_int_signed14_witness :
    (0x4000 : Nat) < 65536 ∧ ltc2990_voltage_to_int 0x4000 = -65536 :=
  ⟨by decide,
   ltc2990_voltage_to_int_signed14.2 0x4000 (by decide) (by decide) (by decide)⟩

/-- C2: on each temperature channel, `ltc2990_get_value` reads the mapped
register and returns `(((raw & 0x1FFF) << 3) * 1000) >> 7` millidegrees:
low 13 bits masked unsigned, no sign extension. -/
theorem ltc2990_get_value_temp (raw : Nat) (r0 : Int) :
    ltc2990_get_value (fun _ => (raw : Int)) LTC2990_TEMP1 r0 =
      ⟨0, (((((raw &&& 0x1FFF) <<< 3) * 1000) >>> 7 : Nat) : Int),
       [LTC2990_TINT_MSB]⟩ ∧
    ltc2990_get_value (fun _ => (raw : Int)) LTC2990_TEMP2 r0 =
      ⟨0, (((((raw &&& 0x1FFF) <<< 3) * 1000) >>> 7 : Nat) : Int),
       [LTC2990_V1_MSB]⟩ ∧
    ltc2990_get_value (fun _ => (raw : Int)) LTC2990_TEMP3 r0 =
      ⟨0, (((((raw &&& 0x1FFF) <<< 3) * 1000) >>> 7 : Nat) : Int),
       [LTC2990_V3_MSB]⟩ := by
  refine ⟨?_, ?_, ?_⟩ <;>
    simp [ltc2990_get_value, ltc2990_reg_of_index, ltc2990_convert,
      int_natCast_not_neg, LTC2990_TEMP1, LTC2990_TEMP2, LTC2990_TEMP3,
      LTC2990_IN0, LTC2990_IN1, LTC2990_IN2, LTC2990_IN3, LTC2990_IN4,
      LTC2990_CURR1, LTC2990_CURR2, LTC2990_TINT_MSB, LTC2990_V1_MSB,
      LTC2990_V3_MSB]

/-- C3: the supply channel IN0 converts as
`decode * 30518 tdiv 400000 + 2500` millivolts and each of IN1..IN4 as
`decode * 30518 tdiv 400000` with no offset; a raw word decoding to zero
gives 2500 on IN0 and 0 on IN1. -/
theorem ltc2990_get_value_in (raw : Nat) (r0 : Int) :
    ltc2990_get_value (fun _ => (raw : Int)) LTC2990_IN0 r0 =
      ⟨0, (ltc2990_voltage_to_int raw * 30518).tdiv 400000 + 2500,
       [LTC2990_VCC_MSB]⟩ ∧
    ltc2990_get_value (fun _ => (raw : Int)) LTC2990_IN1 r0 =
      ⟨0, (ltc2990_voltage_to_int raw * 30518).tdiv 400000,
       [LTC2990_V1_MSB]⟩ ∧
    ltc2990_get_value (fun _ => (raw : Int)) LTC2990_IN2 r0 =
      ⟨0, (ltc2990_voltage_to_int raw * 30518).tdiv 400000,
       [LTC2990_V2_MSB]⟩ ∧
    ltc2990_get_value (fun _ => (raw : Int)) LTC2990_IN3 r0 =
      ⟨0, (ltc2990_voltage_to_int raw * 30518).tdiv 400000,
       [LTC2990_V3_MSB]⟩ ∧
    ltc2990_get_value (fun _ => (raw : Int)) LTC2990_IN4 r0 =
      ⟨0, (ltc2990_voltage_to_int raw * 30518).tdiv 400000,
       [LTC2990_V4_MSB]⟩ ∧
    (ltc2990_voltage_to_int raw = 0 →
      (ltc2990_get_value (fun _ => (raw : Int)) LTC2990_IN0 r0).result = 2500 ∧
      (ltc2990_get_value (fun _ => (raw : Int)) LTC2990_IN1 r0).result = 0) := by
  have hconv : ((raw : Int)).toNat = raw := Int.toNat_natCast raw
  refine ⟨?_, ?_, ?_, ?_, ?_, ?_⟩ <;>
    simp [ltc2990_get_value, ltc2990_reg_of_index, ltc2990_convert,
      int_natCast_not_neg, hconv, LTC2990_TEMP1, LTC2990_TEMP2, LTC2990_TEMP3,
      LTC2990_IN0, LTC2990_IN1, LTC2990_IN2, LTC2990_IN3, LTC2990_IN4,
      LTC2990_CURR1, LTC2990_CURR2, LTC2990_VCC_MSB, LTC2990_V1_MSB,
      LTC2990_V2_MSB, LTC2990_V3_MSB, LTC2990_V4_MSB]
  intro h
  simp [h]

/-- C3 witness: the all-zero raw word decodes to zero; on it IN0 reads 2500
millivolts and IN1 reads 0. -/
theorem ltc2990_get_value_in_witness :
    ltc2990_voltage_to_int 0 = 0 ∧
    (ltc2990_get_value (fun _ => ((0 : Nat) : Int)) LTC2990_IN0 99).result
      = 2500 ∧
    (ltc2990_get_value (fun _ => ((0 : Nat) : Int)) LTC2990_IN1 99).result
      = 0 :=
  ⟨by decide, (ltc2990_get_value_in 0 99).2.2.2.2.2 (by decide)⟩

/-- C4: each differential-current channel converts as
`decode * 1942 tdiv 400`, the division truncating toward zero; at raw
`0x7FFF` (decode -4) the result is -19, not the floor value -20. -/
theorem ltc2990_get_value_curr (raw : Nat) (r0 : Int) :
    ltc2990_get_value (fun _ => (raw : Int)) LTC2990_CURR1 r0 =
      ⟨0, (ltc2990_voltage_to_int raw * 1942).tdiv 400, [LTC2990_V1_MSB]⟩ ∧
    ltc2990_get_value (fun _ => (raw : Int)) LTC2990_CURR2 r0 =
      ⟨0, (ltc2990_voltage_to_int raw * 1942).tdiv 400, [LTC2990_V3_MSB]⟩ ∧
    (ltc2990_get_value (fun _ => ((0x7FFF : Nat) : Int)) LTC2990_CURR1 0).result
      = -19 := by
  have hconv : ((raw : Int)).toNat = raw := Int.toNat_natCast raw
  refine ⟨?_, ?_, by decide⟩ <;>
    simp [ltc2990_get_value, ltc2990_reg_of_index, ltc2990_convert,
      int_natCast_not_neg, hconv,
      LTC2990_TEMP1, LTC2990_TEMP2, LTC2990_TEMP3, LTC2990_IN0, LTC2990_IN1,
      LTC2990_IN2, LTC2990_IN3, LTC2990_IN4, LTC2990_CURR1, LTC2990_CURR2,
      LTC2990_V1_MSB, LTC2990_V3_MSB]

/-- C5: the mode table is a pure lookup: for each mode 0..7 the visible
channels are exactly the listed mode-dependent set plus the always-visible
internal temperature (TEMP1) and supply voltage (IN0), and no table entry
contains the TEMP1 or IN0 bit. -/
theorem ltc2990_mode_table :
    ltc2990_enabled_channels 0 =
      [LTC2990_IN0, LTC2990_IN1, LTC2990_IN2, LTC2990_TEMP1, LTC2990_TEMP3] ∧
    ltc2990_enabled_channels 1 =
      [LTC2990_IN0, LTC2990_CURR1, LTC2990_TEMP1, LTC2990_TEMP3] ∧
    ltc2990_enabled_channels 2 =
      [LTC2990_IN0, LTC2990_IN3, LTC2990_IN4, LTC2990_CURR1, LTC2990_TEMP1] ∧
    ltc2990_enabled_channels 3 =
      [LTC2990_IN0, LTC2990_IN3, LTC2990_IN4, LTC2990_TEMP1, LTC2990_TEMP2] ∧
    ltc2990_enabled_channels 4 =
      [LTC2990_IN0, LTC2990_CURR2, LTC2990_TEMP1, LTC2990_TEMP2] ∧
    ltc2990_enabled_channels 5 =
      [LTC2990_IN0, LTC2990_TEMP1, LTC2990_TEMP2, LTC2990_TEMP3] ∧
    ltc2990_enabled_channels 6 =
      [LTC2990_IN0, LTC2990_CURR1, LTC2990_CURR2, LTC2990_TEMP1] ∧
    ltc2990_enabled_channels 7 =
      [LTC2990_IN0, LTC2990_IN1, LTC2990_IN2, LTC2990_IN3, LTC2990_IN4,
       LTC2990_TEMP1] ∧
    (∀ e ∈ ltc2990_attrs_ena, e &&& (LTC2990_TEMP1 ||| LTC2990_IN0) = 0) := by
  decide

/-- C6: `ltc2990_set_mode` with a mode above 7 returns `-EINVAL` with an
empty event trace (the lock is never taken, nothing is stored or written)
and an unchanged state, so the enabled-channel set is unchanged too. -/
theorem ltc2990_set_mode_reject (s : LtcState) (mode : Nat)
    (w1 w2 sysfsRet count : Int) (h : mode > 7) :
    ltc2990_set_mode s mode w1 w2 sysfsRet count = ⟨-EINVAL, s, []⟩ ∧
    (ltc2990_set_mode s mode w1 w2 sysfsRet count).state.mode = s.mode ∧
    ltc2990_enabled_channels
        (ltc2990_set_mode s mode w1 w2 sysfsRet count).state.mode =
      ltc2990_enabled_channels s.mode := by
  have hmax : mode > LTC2990_CONTROL_MODE_MAX := h
  simp [ltc2990_set_mode, hmax]

/-- C6 witness: `set_mode 8` on a state in mode 2 fails with `-EINVAL` and
changes nothing. -/
theorem ltc2990_set_mode_reject_witness :
    ltc2990_set_mode ⟨2, none, none⟩ 8 0 0 0 5 =
      ⟨-EINVAL, ⟨2, none, none⟩, []⟩ ∧
    (ltc2990_set_mode ⟨2, none, none⟩ 8 0 0 0 5).state.mode =
      (⟨2, none, none⟩ : LtcState).mode ∧
    ltc2990_enabled_channels
        (ltc2990_set_mode ⟨2, none, none⟩ 8 0 0 0 5).state.mode =
      ltc2990_enabled_channels (⟨2, none, none⟩ : LtcState).mode :=
  ltc2990_set_mode_reject ⟨2, none, none⟩ 8 0 0 0 5 (by decide)

/-- C7: `ltc2990_set_mode` with a valid mode stores the mode before the
control and trigger writes (the trace begins lock, store); when either write
fails, the failing write's error is returned and the stored mode is already
the new one, not rolled back. -/
theorem ltc2990_set_mode_nonatomic (s : LtcState) (mode : Nat)
    (w1 w2 sysfsRet count : Int) (hm : mode ≤ 7)
    (hw : w1 < 0 ∨ (0 ≤ w1 ∧ w2 < 0)) :
    (ltc2990_set_mode s mode w1 w2 sysfsRet count).ret =
      (if w1 < 0 then w1 else w2) ∧
    (ltc2990_set_mode s mode w1 w2 sysfsRet count).ret < 0 ∧
    (ltc2990_set_mode s mode w1 w2 sysfsRet count).state.mode = mode ∧
    ∃ tail, (ltc2990_set_mode s mode w1 w2 sysfsRet count).events =
      Event.lock :: Event.storeMode mode :: tail := by
  have hmax : ¬(mode > LTC2990_CONTROL_MODE_MAX) := by
    simp only [LTC2990_CONTROL_MODE_MAX]
    omega
  rcases hw with h1 | ⟨h1, h2⟩
  · simp [ltc2990_set_mode, ltc2990_write_control_trigger, hmax, h1]
  · simp [ltc2990_set_mode, ltc2990_write_control_trigger, hmax,
      Int.not_lt.mpr h1, h2]

/-- C7 witness: `set_mode 3` whose control write fails with -5 returns -5
with the stored mode already 3 and the store before any write in the trace. -/
theorem ltc2990_set_mode_nonatomic_witness :
    (ltc2990_set_mode ⟨2, none, none⟩ 3 (-5) 0 0 5).ret =
      (if (-5 : Int) < 0 then (-5 : Int) else 0) ∧
    (ltc2990_set_mode ⟨2, none, none⟩ 3 (-5) 0 0 5).ret < 0 ∧
    (ltc2990_set_mode ⟨2, none, none⟩ 3 (-5) 0 0 5).state.mode = 3 ∧
    ∃ tail, (ltc2990_set_mode ⟨2, none, none⟩ 3 (-5) 0 0 5).events =
      Event.lock :: Event.storeMode 3 :: tail :=
  ltc2990_set_mode_nonatomic ⟨2, none, none⟩ 3 (-5) 0 0 5 (by decide)
    (Or.inl (by decide))

/-- C8: the channel-to-register map is fixed (TEMP1 to TINT; IN1, CURR1 and
TEMP2 to V1; IN2 to V2; IN3, CURR2 and TEMP3 to V3; IN4 to V4; IN0 to VCC),
independent of any mode, and any index outside the ten channels makes
`ltc2990_get_value` return `-EINVAL` with no bus read. -/
theorem ltc2990_reg_map :
    ltc2990_reg_of_index LTC2990_TEMP1 = some LTC2990_TINT_MSB ∧
    ltc2990_reg_of_index LTC2990_IN1 = some LTC2990_V1_MSB ∧
    ltc2990_reg_of_index LTC2990_CURR1 = some LTC2990_V1_MSB ∧
    ltc2990_reg_of_index LTC2990_TEMP2 = some LTC2990_V1_MSB ∧
    ltc2990_reg_of_index LTC2990_IN2 = some LTC2990_V2_MSB ∧
    ltc2990_reg_of_index LTC2990_IN3 = some LTC2990_V3_MSB ∧
    ltc2990_reg_of_index LTC2990_CURR2 = some LTC2990_V3_MSB ∧
    ltc2990_reg_of_index LTC2990_TEMP3 = some LTC2990_V3_MSB ∧
    ltc2990_reg_of_index LTC2990_IN4 = some LTC2990_V4_MSB ∧
    ltc2990_reg_of_index LTC2990_IN0 = some LTC2990_VCC_MSB ∧
    ∀ (bus : Nat → Int) (index : Nat) (r0 : Int),
      index ∉ ltc2990_all_channels →
        ltc2990_get_value bus index r0 = ⟨-EINVAL, r0, []⟩ := by
  refine ⟨by decide, by decide, by decide, by decide, by decide, by decide,
    by decide, by decide, by decide, by decide, ?_⟩
  intro bus index r0 h
  simp [ltc2990_all_channels, List.mem_cons, not_or,
    LTC2990_IN0, LTC2990_IN1, LTC2990_IN2, LTC2990_IN3, LTC2990_IN4,
    LTC2990_CURR1, LTC2990_CURR2, LTC2990_TEMP1, LTC2990_TEMP2,
    LTC2990_TEMP3] at h
  obtain ⟨h0, h1, h2, h3, h4, h5, h6, h7, h8, h9⟩ := h
  simp [ltc2990_get_value, ltc2990_reg_of_index,
    LTC2990_IN0, LTC2990_IN1, LTC2990_IN2, LTC2990_IN3, LTC2990_IN4,
    LTC2990_CURR1, LTC2990_CURR2, LTC2990_TEMP1, LTC2990_TEMP2, LTC2990_TEMP3,
    h0, h1, h2, h3, h4, h5, h6, h7, h8, h9]

/-- C8 witness: index 3 is not a channel bit; the call fails with `-EINVAL`
and reads no register. -/
theorem ltc2990_reg_map_witness :
    ltc2990_get_value (fun _ => (0 : Int)) 3 99 = ⟨-EINVAL, 99, []⟩ :=
  ltc2990_reg_map.2.2.2.2.2.2.2.2.2.2 (fun _ => (0 : Int)) 3 99 (by decide)

/-- C9: probing with a configured mode above 7 warns, stores the default
mode 6 instead, and runs the control/trigger sequence exactly as a probe
configured with mode 6 would; when the control write succeeds, the control
register holds measure-all with mode 6. -/
theorem ltc2990_probe_init_out_of_range (cfg : Nat) (w1 w2 : Int)
    (h : cfg > 7) :
    (ltc2990_i2c_probe_init (some cfg) w1 w2).warned = true ∧
    (ltc2990_i2c_probe_init (some cfg) w1 w2).state.mode =
      LTC2990_CONTROL_MODE_DEFAULT ∧
    (ltc2990_i2c_probe_init (some cfg) w1 w2).state =
      (ltc2990_i2c_probe_init (some LTC2990_CONTROL_MODE_DEFAULT) w1 w2).state ∧
    (ltc2990_i2c_probe_init (some cfg) w1 w2).events =
      (ltc2990_i2c_probe_init (some LTC2990_CONTROL_MODE_DEFAULT) w1 w2).events ∧
    (ltc2990_i2c_probe_init (some cfg) w1 w2).ret =
      (ltc2990_i2c_probe_init (some LTC2990_CONTROL_MODE_DEFAULT) w1 w2).ret ∧
    (0 ≤ w1 → (ltc2990_i2c_probe_init (some cfg) w1 w2).state.control =
      some (LTC2990_CONTROL_MEASURE_ALL ||| LTC2990_CONTROL_MODE_DEFAULT)) := by
  have hlt : 7 < cfg := h
  refine ⟨?_, ?_, ?_, ?_, ?_, ?_⟩
  · simp [ltc2990_i2c_probe_init, LTC2990_CONTROL_MODE_MAX, hlt]
  · by_cases hw1 : w1 < 0 <;> by_cases hw2 : w2 < 0 <;>
      simp [ltc2990_i2c_probe_init, ltc2990_write_control_trigger, hlt,
        hw1, hw2, LTC2990_CONTROL_MODE_DEFAULT, LTC2990_CONTROL_MODE_MAX]
  · simp [ltc2990_i2c_probe_init, hlt,
      LTC2990_CONTROL_MODE_DEFAULT, LTC2990_CONTROL_MODE_MAX]
  · simp [ltc2990_i2c_probe_init, hlt,
      LTC2990_CONTROL_MODE_DEFAULT, LTC2990_CONTROL_MODE_MAX]
  · simp [ltc2990_i2c_probe_init, hlt,
      LTC2990_CONTROL_MODE_DEFAULT, LTC2990_CONTROL_MODE_MAX]
  · intro hw1
    by_cases hw2 : w2 < 0 <;>
      simp [ltc2990_i2c_probe_init, ltc2990_write_control_trigger, hlt,
        Int.not_lt.mpr hw1, hw2, LTC2990_CONTROL_MODE_DEFAULT,
        LTC2990_CONTROL_MODE_MAX]

/-- C9 witness: `initialize` with configured mode 12 and successful writes
warns, ends in mode 6 and writes control byte measure-all with mode 6. -/
theorem ltc2990_probe_init_out_of_range_witness :
    (ltc2990_i2c_probe_init (some 12) 0 0).warned = true ∧
    (ltc2990_i2c_probe_init (some 12) 0 0).state.mode =
      LTC2990_CONTROL_MODE_DEFAULT ∧
    (ltc2990_i2c_probe_init (some 12) 0 0).state.control =
      some (LTC2990_CONTROL_MEASURE_ALL ||| LTC2990_CONTROL_MODE_DEFAULT) := by
  have h := ltc2990_probe_init_out_of_range 12 0 0 (by decide)
  exact ⟨h.1, h.2.1, h.2.2.2.2.2 (by decide)⟩

/-- C10: on every failing return of `ltc2990_get_value` (negative return,
whether an unmapped channel or a transport read failure) the out-parameter
keeps the value the caller passed in; any non-negative return is exactly 0,
the success path, on which the out-parameter is written. -/
theorem ltc2990_get_value_frame (bus : Nat → Int) (index : Nat) (r0 : Int) :
    ((ltc2990_get_value bus index r0).ret < 0 →
      (ltc2990_get_value bus index r0).result = r0) ∧
    ((ltc2990_get_value bus index r0).ret = 0 ∨
      (ltc2990_get_value bus index r0).ret < 0) := by
  unfold ltc2990_get_value
  rcases hreg : ltc2990_reg_of_index index with _ | reg
  · simp [EINVAL]
  · by_cases hv : bus reg < 0
    · simp [hv]
    · rcases hc : ltc2990_convert index (bus reg).toNat with _ | v
      · simp [hv, hc, EINVAL]
      · simp [hv, hc]

/-- C10 witness: a transport failure (-5) on the internal temperature
channel leaves the out-parameter at its initial value 99. -/
theorem ltc2990_get_value_frame_witness :
    (ltc2990_get_value (fun _ => (-5 : Int)) LTC2990_TEMP1 99).result = 99 :=
  (ltc2990_get_value_frame (fun _ => (-5 : Int)) LTC2990_TEMP1 99).1 (by decide)
